import Mathlib

/-!
# Egyptian ID validator — shallow embedding

A shallow embedding of the `egyptian-id-validator` repository
(`id_api/validator/helper.py`, `enums.py`, `authentication.py`,
`throttling.py`, `views.py`) together with theorems settling the
specification claims about it.

Strings are modelled as `List Char`; Python's mutable error list is
threaded explicitly (each stage returns the errors it appended, and the
caller concatenates, which coincides with Python's append-to-shared-list
discipline because successful stages append nothing).
-/

namespace EgyptianId

/-! ## enums.py -/

/-- `GOVERNORATES` table from `enums.py` (code → name). -/
def GOVERNORATES : List (String × String) :=
  [("01", "Cairo"), ("02", "Alexandria"), ("03", "Port Said"), ("04", "Suez"),
   ("11", "Damietta"), ("12", "Dakahlia"), ("13", "Sharqia"), ("14", "Qalyubia"),
   ("15", "Kafr El Sheikh"), ("16", "Gharbia"), ("17", "Monufia"), ("18", "Beheira"),
   ("19", "Ismailia"),
   ("21", "Giza"), ("22", "Beni Suef"), ("23", "Fayoum"), ("24", "Minya"),
   ("25", "Asyut"), ("26", "Sohag"), ("27", "Qena"), ("28", "Aswan"), ("29", "Luxor"),
   ("31", "Red Sea"), ("32", "New Valley"), ("33", "Matrouh"), ("34", "North Sinai"),
   ("35", "South Sinai"),
   ("88", "Foreigner")]

/-- `CENTURY_MAP` from `enums.py` (century digit → base year). -/
def CENTURY_MAP : List (Char × Nat) := [('2', 1900), ('3', 2000)]

/-- `CENTURY_MAP.get`-style lookup (`none` models a missing key). -/
def centuryLookup (c : Char) : Option Nat :=
  (CENTURY_MAP.find? (fun p => p.1 == c)).map Prod.snd

/-- The `IDValidationError` string values from `enums.py` that the
validator appends to its error list. -/
def ERR_INVALID_LENGTH : String := "invalid_length"

def ERR_INVALID_CHARACTERS : String := "invalid_characters"

def ERR_UNKNOWN_CENTURY : String := "unknown_century"

def ERR_INVALID_MONTH : String := "invalid_month"

def ERR_INVALID_DAY : String := "invalid_day"

def ERR_INVALID_DATE : String := "invalid_date"

def ERR_FUTURE_DATE : String := "future_date"

def ERR_UNKNOWN_GOVERNORATE : String := "unknown_governorate"

def ERR_INVALID_CHECKSUM : String := "invalid_checksum"

/-! ## Characters and Python string primitives -/

/-- Python `str.strip()` whitespace set, by code point: ASCII whitespace
9–13, the information separators 28–31, space, NEL, and the Unicode
space separators. -/
def isPySpace (c : Char) : Bool :=
  (9 ≤ c.toNat && c.toNat ≤ 13) || (28 ≤ c.toNat && c.toNat ≤ 31) ||
  c.toNat = 32 || c.toNat = 0x85 || c.toNat = 0xA0 || c.toNat = 0x1680 ||
  (0x2000 ≤ c.toNat && c.toNat ≤ 0x200A) ||
  c.toNat = 0x2028 || c.toNat = 0x2029 || c.toNat = 0x202F ||
  c.toNat = 0x205F || c.toNat = 0x3000

/-- Python `str.strip()`: drop leading and trailing whitespace. -/
def pyStrip (s : List Char) : List Char :=
  ((s.dropWhile isPySpace).reverse.dropWhile isPySpace).reverse

/-- ASCII digit `'0'`–`'9'` (code points 48–57). -/
def isAsciiDigit (c : Char) : Bool := 48 ≤ c.toNat && c.toNat ≤ 57

/-- Eastern Arabic-Indic digit `'٠'`–`'٩'` (U+0660–U+0669). -/
def isArabicDigit (c : Char) : Bool := 0x660 ≤ c.toNat && c.toNat ≤ 0x669

/-- Python `str.isdigit()` restricted to the digit blocks this code base
manipulates (ASCII and Eastern Arabic-Indic); other Unicode digit
characters are outside the model's character domain. -/
def pyIsDigit (c : Char) : Bool := isAsciiDigit c || isArabicDigit c

/-- Value of a single digit character, the `int(c)` of Python on the
digit characters in the model's domain (`0` elsewhere; every use is
guarded by a digit check). -/
def digitVal (c : Char) : Nat :=
  if isAsciiDigit c then c.toNat - 48
  else if isArabicDigit c then c.toNat - 0x660
  else 0

/-- Python `int(s)` on a non-empty all-digit string slice (every call
site is guarded by `str.isdigit()` on the whole id). -/
def digitsVal (s : List Char) : Nat := s.foldl (fun a c => 10 * a + digitVal c) 0

/-! ## helper.py : `EgyptianIDValidator` -/

/-- `_normalize_digits`' `str.maketrans` table, one entry per pair of the
two digit-string literals. -/
def normalizeDigit (c : Char) : Char :=
  if c = '٠' then '0' else if c = '١' then '1' else if c = '٢' then '2'
  else if c = '٣' then '3' else if c = '٤' then '4' else if c = '٥' then '5'
  else if c = '٦' then '6' else if c = '٧' then '7' else if c = '٨' then '8'
  else if c = '٩' then '9' else c

/-- `EgyptianIDValidator._normalize_digits`: `str.translate` with the
Arabic-digits → ASCII table. -/
def normalize_digits (text : List Char) : List Char := text.map normalizeDigit

/-- `EgyptianIDValidator._validate_format`. Returns the normalized id on
success (`Python` returns the string, falsy `False` on failure, modelled
by `Option`), paired with the errors appended. -/
def validate_format (national_id : List Char) : Option (List Char) × List String :=
  if national_id.length ≠ 14 then (none, [ERR_INVALID_LENGTH])
  else
    let normalized := normalize_digits national_id
    -- Python: `if not normalized or not normalized.isdigit() or len(normalized) != 14`
    if normalized.isEmpty || !(normalized.all pyIsDigit) || normalized.length ≠ 14 then
      (none, [ERR_INVALID_CHARACTERS])
    else (some normalized, [])

/-- A `datetime.date`: the validator only builds years 1900–2099, well
inside `datetime`'s 1–9999 range. -/
structure PyDate where
  year : Nat
  month : Nat
  day : Nat
deriving DecidableEq, Repr

/-- Gregorian leap-year rule used by `datetime.date`. -/
def isLeap (y : Nat) : Bool := y % 4 = 0 && (y % 100 ≠ 0 || y % 400 = 0)

/-- Days in a month per `datetime.date`. -/
def daysInMonth (y m : Nat) : Nat :=
  if m = 2 then (if isLeap y then 29 else 28)
  else if m = 4 || m = 6 || m = 9 || m = 11 then 30
  else 31

/-- `datetime.date(y, m, d)`: `none` models the `ValueError` raised on a
non-existent calendar date. -/
def mkDate (y m d : Nat) : Option PyDate :=
  if 1 ≤ y && y ≤ 9999 && 1 ≤ m && m ≤ 12 && 1 ≤ d && d ≤ daysInMonth y m then
    some ⟨y, m, d⟩
  else none

/-- `datetime.date` ordering (lexicographic on year, month, day);
`dateLt a b` is Python's `a < b`. -/
def dateLt (a b : PyDate) : Bool :=
  a.year < b.year || (a.year = b.year &&
    (a.month < b.month || (a.month = b.month && a.day < b.day)))

/-- `EgyptianIDValidator._validate_century`: `true` iff the century digit
is a `CENTURY_MAP` key; second component is the errors appended. -/
def validate_century (century_digit : Char) : Bool × List String :=
  if (centuryLookup century_digit).isNone then (false, [ERR_UNKNOWN_CENTURY])
  else (true, [])

/-- `EgyptianIDValidator._validate_date`. `today` stands for
`date.today()`. The caller has already validated the century digit, so
the `CENTURY_MAP[century_digit]` lookup cannot fail on the reachable
path (`getD 0` is never taken); the digit slices come from an
`isdigit`-checked string, so `int()` cannot raise there. -/
def validate_date (today : PyDate) (century_digit : Char)
    (year_short month day : List Char) : Option PyDate × List String :=
  let full_year := (centuryLookup century_digit).getD 0 + digitsVal year_short
  let month_int := digitsVal month
  let day_int := digitsVal day
  if month_int < 1 || month_int > 12 then (none, [ERR_INVALID_MONTH])
  else if day_int < 1 || day_int > 31 then (none, [ERR_INVALID_DAY])
  else
    match mkDate full_year month_int day_int with
    | none => (none, [ERR_INVALID_DATE])
    | some birth_date =>
      if dateLt today birth_date then (none, [ERR_FUTURE_DATE])
      else (some birth_date, [])

/-- `EgyptianIDValidator._validate_governorate`: name (or `"Unknown"`)
plus the errors appended. -/
def validate_governorate (governorate_code : List Char) : String × List String :=
  let governorate_name :=
    ((GOVERNORATES.find? (fun p => p.1 == String.mk governorate_code)).map Prod.snd).getD
      "Unknown"
  if governorate_name == "Unknown" then (governorate_name, [ERR_UNKNOWN_GOVERNORATE])
  else (governorate_name, [])

/-- The checksum weights of `_validate_checksum`. -/
def weights : List Nat := [2, 7, 6, 5, 4, 3, 2, 7, 6, 5, 4, 3, 2]

/-- `EgyptianIDValidator._validate_checksum`. The `for i in range(13)`
loop plus `int(national_id[13])` raise `IndexError`/`ValueError` — and
the function returns `False` — exactly when fewer than 14 characters
exist or a consulted character is not a digit; otherwise the weighted
sum of the first 13 digits is compared (mod-11 scheme) with digit 13.
`zipWith` with the 13 weights performs the 13-iteration loop. -/
def validate_checksum (national_id : List Char) : Bool :=
  if national_id.length < 14 || !((national_id.take 14).all pyIsDigit) then false
  else
    let total := (List.zipWith (fun c w => digitVal c * w) national_id weights).sum
    let remainder := total % 11
    let check_digit := (11 - remainder) % 10
    check_digit == digitVal (national_id.getD 13 ' ')

/-- `EgyptianIDValidator._calculate_age`. -/
def calculate_age (today birth_date : PyDate) : Int :=
  let age : Int := (today.year : Int) - (birth_date.year : Int)
  -- Python: `if (today.month, today.day) < (birthined.month, birth_date.day)`
  if today.month < birth_date.month ||
      (today.month = birth_date.month && today.day < birth_date.day) then age - 1
  else age

/-- The `parsed_data` dict built by `validate_and_parse`. `checksum_ok`
is initialised to `None` in the source but unconditionally overwritten
with the checksum result before the dict is built, so it is a `Bool`
here. -/
structure ParsedData where
  raw : List Char
  century_digit : Char
  birth_date : PyDate
  age : Int
  governorate_code : List Char
  governorate_name : String
  serial : List Char
  gender : String
  checksum_ok : Bool
deriving DecidableEq, Repr

/-- `EgyptianIDValidator.validate_and_parse`. `today` stands for
`date.today()` (read twice in the source, within one request). Fixed
offsets are taken with `take`/`drop`; `getD` models in-range indexing
(the format stage guarantees length 14). -/
def validate_and_parse (today : PyDate) (national_id : List Char)
    (strict_checksum : Bool) : Bool × List String × Option ParsedData :=
  let stripped := pyStrip national_id
  match validate_format stripped with
  | (none, errs) => (false, errs, none)
  | (some nid, errs₀) =>
    let century_digit := nid.getD 0 ' '
    let year_short := (nid.drop 1).take 2
    let month := (nid.drop 3).take 2
    let day := (nid.drop 5).take 2
    let governorate_code := (nid.drop 7).take 2
    let serial := (nid.drop 9).take 4
    match validate_century century_digit with
    | (false, errs₁) => (false, errs₀ ++ errs₁, none)
    | (true, errs₁) =>
      match validate_date today century_digit year_short month day with
      | (none, errs₂) => (false, errs₀ ++ errs₁ ++ errs₂, none)
      | (some birth_date, errs₂) =>
        let (governorate_name, errs₃) := validate_governorate governorate_code
        let checksum_ok := validate_checksum nid
        let errs₄ :=
          if strict_checksum && !checksum_ok then [ERR_INVALID_CHECKSUM] else []
        let errors := errs₀ ++ errs₁ ++ errs₂ ++ errs₃ ++ errs₄
        if !errors.isEmpty then (false, errors, none)
        else
          let age := calculate_age today birth_date
          let gender := if digitVal (serial.getD 3 ' ') % 2 = 1 then "male" else "female"
          (true, errors,
            some { raw := nid, century_digit := century_digit,
                   birth_date := birth_date, age := age,
                   governorate_code := governorate_code,
                   governorate_name := governorate_name, serial := serial,
                   gender := gender, checksum_ok := checksum_ok })

/-! ## General lemmas -/

/-- An index-wise sum over `List.range w.length` equals the
corresponding `zipWith` sum when the data list is long enough. -/
theorem sum_range_map_eq_sum_zipWith (f : Char → Nat → Nat) :
    ∀ (w : List Nat) (s : List Char), w.length ≤ s.length →
    ((List.range w.length).map (fun i => f (s.getD i ' ') (w.getD i 0))).sum
      = (List.zipWith f s w).sum := by
  intro w
  induction w with
  | nil => intro s _; simp
  | cons wh wt ih =>
    intro s hle
    cases s with
    | nil => simp at hle
    | cons sh st =>
      simp only [List.length_cons, List.range_succ_eq_map, List.map_cons, List.map_map,
        List.zipWith_cons_cons, List.sum_cons, List.getD_cons_zero]
      congr 1
      rw [← ih st (by simpa using hle)]
      apply congrArg
      apply List.map_congr_left
      intro i _
      simp [List.getD_cons_succ]

/-! ## Claim C1 — the checksum algorithm -/

/-- The weight list exactly as the claim words it. -/
def claim_weights : List Nat := [2, 7, 6, 5, 4, 3, 2, 7, 6, 5, 4, 3, 2]

/-- The claim's weighted total: `Σ digit[i] * weight[i]` over positions
`0 ≤ i < 13`, stated positionally (by index), unlike the source's loop
which is embedded as a `zipWith`. -/
def claim_total (s : List Char) : Nat :=
  ((List.range 13).map (fun i => digitVal (s.getD i ' ') * claim_weights.getD i 0)).sum

/-- The claim's `expected_check = (11 - total mod 11) mod 10`. -/
def claim_expected_check (s : List Char) : Nat := (11 - claim_total s % 11) % 10

/-- C1: for every 14-digit ASCII string, `_validate_checksum` succeeds
iff the positionally-weighted mod-11 `expected_check` of the claim
equals the 14th digit. -/
theorem checksum_algorithm_as_specified (s : List Char) (h14 : s.length = 14)
    (hd : ∀ c ∈ s, isAsciiDigit c = true) :
    validate_checksum s = true ↔ claim_expected_check s = digitVal (s.getD 13 ' ') := by
  have hall : (s.take 14).all pyIsDigit = true := by
    rw [List.all_eq_true]
    intro c hc
    have := hd c (List.mem_of_mem_take hc)
    simp [pyIsDigit, this]
  have hguard : (s.length < 14 || !((s.take 14).all pyIsDigit)) = false := by
    simp [hall, h14]
  have htot : claim_total s = (List.zipWith (fun c w => digitVal c * w) s weights).sum := by
    have hlen : weights.length ≤ s.length := by rw [h14]; decide
    have h := sum_range_map_eq_sum_zipWith (fun c w => digitVal c * w) weights s hlen
    have h13 : weights.length = 13 := by decide
    rw [h13] at h
    rw [claim_total, ← h]
    rfl
  unfold validate_checksum
  rw [hguard]
  simp only [Bool.false_eq_true, if_false, beq_iff_eq, claim_expected_check, htot]

/-- C1 witness: the theorem applied at the concrete id
`"30103271701312"`. -/
theorem checksum_algorithm_as_specified_witness :
    ("30103271701312".toList.length = 14 ∧
      ∀ c ∈ "30103271701312".toList, isAsciiDigit c = true) ∧
    (validate_checksum "30103271701312".toList = true ↔
      claim_expected_check "30103271701312".toList
        = digitVal ("30103271701312".toList.getD 13 ' ')) :=
  ⟨⟨by decide, by decide⟩,
    checksum_algorithm_as_specified "30103271701312".toList (by decide) (by decide)⟩

/-! ## Stage characterizations of the parsing pipeline -/

/-- Every outcome of `_validate_format`. -/
theorem validate_format_shape (s : List Char) :
    (∃ n, validate_format s = (some n, [])) ∨
    validate_format s = (none, [ERR_INVALID_LENGTH]) ∨
    validate_format s = (none, [ERR_INVALID_CHARACTERS]) := by
  by_cases h1 : s.length ≠ 14
  · right; left; simp [validate_format, h1]
  · by_cases h2 : ((normalize_digits s).isEmpty || !((normalize_digits s).all pyIsDigit)
        || decide ((normalize_digits s).length ≠ 14)) = true
    · right; right
      simp only [validate_format]
      rw [if_neg h1, if_pos h2]
    · left
      refine ⟨normalize_digits s, ?_⟩
      simp only [validate_format]
      rw [if_neg h1, if_neg h2]

/-- Every outcome of `_validate_century`. -/
theorem validate_century_shape (c : Char) :
    validate_century c = (true, []) ∨
    validate_century c = (false, [ERR_UNKNOWN_CENTURY]) := by
  by_cases h : (centuryLookup c).isNone
  · right; simp [validate_century, h]
  · left; simp [validate_century, h]

/-- Every outcome of `_validate_date`. -/
theorem validate_date_shape (today : PyDate) (c : Char) (y m d : List Char) :
    (∃ bd, validate_date today c y m d = (some bd, [])) ∨
    validate_date today c y m d = (none, [ERR_INVALID_MONTH]) ∨
    validate_date today c y m d = (none, [ERR_INVALID_DAY]) ∨
    validate_date today c y m d = (none, [ERR_INVALID_DATE]) ∨
    validate_date today c y m d = (none, [ERR_FUTURE_DATE]) := by
  by_cases h1 : (decide (digitsVal m < 1) || decide (digitsVal m > 12)) = true
  · right; left
    simp only [validate_date]
    rw [if_pos h1]
  · by_cases h2 : (decide (digitsVal d < 1) || decide (digitsVal d > 31)) = true
    · right; right; left
      simp only [validate_date]
      rw [if_neg h1, if_pos h2]
    · rcases hmk : mkDate ((centuryLookup c).getD 0 + digitsVal y) (digitsVal m)
        (digitsVal d) with _ | bd
      · right; right; right; left
        simp only [validate_date]
        rw [if_neg h1, if_neg h2, hmk]
      · by_cases h3 : dateLt today bd = true
        · right; right; right; right
          simp only [validate_date]
          rw [if_neg h1, if_neg h2, hmk]
          simp [h3]
        · left
          refine ⟨bd, ?_⟩
          simp only [validate_date]
          rw [if_neg h1, if_neg h2, hmk]
          simp [h3]

/-- Every outcome of `_validate_governorate`. -/
theorem validate_governorate_shape (g : List Char) :
    (∃ n, validate_governorate g = (n, [])) ∨
    validate_governorate g = ("Unknown", [ERR_UNKNOWN_GOVERNORATE]) := by
  by_cases h : ((((GOVERNORATES.find? (fun p => p.1 == String.mk g)).map Prod.snd).getD
      "Unknown") == "Unknown") = true
  · right
    have he := eq_of_beq h
    simp only [validate_governorate]
    rw [if_pos h, he]
  · left
    refine ⟨(((GOVERNORATES.find? (fun p => p.1 == String.mk g)).map Prod.snd).getD
      "Unknown"), ?_⟩
    simp only [validate_governorate]
    rw [if_neg h]

/-- Master shape lemma for `validate_and_parse`: the result is either a
success triple (`true`, no errors, a parsed payload) or a failure triple
(`false`, `none`) whose error list is a single stage's singleton — or
the one two-element list `[unknown_governorate, invalid_checksum]`,
since the governorate stage does not stop the pipeline. -/
theorem validate_and_parse_shape (today : PyDate) (input : List Char) (strict : Bool) :
    (validate_and_parse today input strict).1 = true ∧
      (validate_and_parse today input strict).2.1 = [] ∧
      (∃ p, (validate_and_parse today input strict).2.2 = some p)
    ∨ (validate_and_parse today input strict).1 = false ∧
      (validate_and_parse today input strict).2.2 = none ∧
      ((validate_and_parse today input strict).2.1 = [ERR_INVALID_LENGTH] ∨
       (validate_and_parse today input strict).2.1 = [ERR_INVALID_CHARACTERS] ∨
       (validate_and_parse today input strict).2.1 = [ERR_UNKNOWN_CENTURY] ∨
       (validate_and_parse today input strict).2.1 = [ERR_INVALID_MONTH] ∨
       (validate_and_parse today input strict).2.1 = [ERR_INVALID_DAY] ∨
       (validate_and_parse today input strict).2.1 = [ERR_INVALID_DATE] ∨
       (validate_and_parse today input strict).2.1 = [ERR_FUTURE_DATE] ∨
       (validate_and_parse today input strict).2.1 = [ERR_UNKNOWN_GOVERNORATE] ∨
       (validate_and_parse today input strict).2.1 = [ERR_INVALID_CHECKSUM] ∨
       (validate_and_parse today input strict).2.1
          = [ERR_UNKNOWN_GOVERNORATE, ERR_INVALID_CHECKSUM]) := by
  rcases validate_format_shape (pyStrip input) with ⟨nid, hf⟩ | hf | hf
  · rcases validate_century_shape (nid.getD 0 ' ') with hc | hc
    · rcases validate_date_shape today (nid.getD 0 ' ') ((nid.drop 1).take 2)
        ((nid.drop 3).take 2) ((nid.drop 5).take 2) with ⟨bd, hdt⟩ | hdt | hdt | hdt | hdt
      · rcases validate_governorate_shape ((nid.drop 7).take 2) with ⟨gn, hg⟩ | hg
        · by_cases hcs : (strict && !validate_checksum nid) = true
          · right
            simp only [validate_and_parse, hf, hc, hdt, hg, hcs]
            simp
          · left
            simp only [validate_and_parse, hf, hc, hdt, hg, hcs]
            simp
        · by_cases hcs : (strict && !validate_checksum nid) = true
          · right
            simp only [validate_and_parse, hf, hc, hdt, hg, hcs]
            simp
          · right
            simp only [validate_and_parse, hf, hc, hdt, hg, hcs]
            simp
      all_goals right; simp only [validate_and_parse, hf, hc, hdt]; simp
    · right; simp only [validate_and_parse, hf, hc]; simp
  all_goals right; simp only [validate_and_parse, hf]; simp

/-! ## Claims C3, C4, C6, C7 — pipeline behaviour -/

/-- C3: for an input passing stages 1–7 whose checksum fails, strict
mode yields `(false, [invalid_checksum], none)` while non-strict mode
yields `(true, [], parsed)` with `parsed.checksum_ok = false`: the
checksum is always computed and reported but gates validity only in
strict mode. -/
theorem checksum_gates_only_strict (today : PyDate) (input nid : List Char)
    (bd : PyDate) (gname : String)
    (hf : validate_format (pyStrip input) = (some nid, []))
    (hc : validate_century (nid.getD 0 ' ') = (true, []))
    (hdt : validate_date today (nid.getD 0 ' ') ((nid.drop 1).take 2)
      ((nid.drop 3).take 2) ((nid.drop 5).take 2) = (some bd, []))
    (hg : validate_governorate ((nid.drop 7).take 2) = (gname, []))
    (hx : validate_checksum nid = false) :
    validate_and_parse today input true = (false, [ERR_INVALID_CHECKSUM], none) ∧
    (validate_and_parse today input false).1 = true ∧
    (validate_and_parse today input false).2.1 = [] ∧
    ∃ p, (validate_and_parse today input false).2.2 = some p ∧ p.checksum_ok = false := by
  refine ⟨?_, ?_, ?_, ?_⟩
  · simp only [validate_and_parse, hf, hc, hdt, hg, hx]
    simp
  · simp only [validate_and_parse, hf, hc, hdt, hg, hx]
    simp
  · simp only [validate_and_parse, hf, hc, hdt, hg, hx]
    simp
  · simp only [validate_and_parse, hf, hc, hdt, hg, hx]
    simp

/-- C3 witness: the theorem applied at `"29001012100017"` (valid
structure, Giza, failing checksum). -/
theorem checksum_gates_only_strict_witness :
    (validate_format (pyStrip "29001012100017".toList)
        = (some "29001012100017".toList, []) ∧
      validate_century ("29001012100017".toList.getD 0 ' ') = (true, []) ∧
      validate_date ⟨2025, 10, 12⟩ ("29001012100017".toList.getD 0 ' ')
        (("29001012100017".toList.drop 1).take 2) (("29001012100017".toList.drop 3).take 2)
        (("29001012100017".toList.drop 5).take 2) = (some ⟨1990, 1, 1⟩, []) ∧
      validate_governorate (("29001012100017".toList.drop 7).take 2) = ("Giza", []) ∧
      validate_checksum "29001012100017".toList = false) ∧
    (validate_and_parse ⟨2025, 10, 12⟩ "29001012100017".toList true
        = (false, [ERR_INVALID_CHECKSUM], none) ∧
      (validate_and_parse ⟨2025, 10, 12⟩ "29001012100017".toList false).1 = true ∧
      (validate_and_parse ⟨2025, 10, 12⟩ "29001012100017".toList false).2.1 = [] ∧
      ∃ p, (validate_and_parse ⟨2025, 10, 12⟩ "29001012100017".toList false).2.2 = some p ∧
        p.checksum_ok = false) :=
  ⟨⟨by decide, by decide, by decide, by decide, by decide⟩,
    checksum_gates_only_strict ⟨2025, 10, 12⟩ "29001012100017".toList
      "29001012100017".toList ⟨1990, 1, 1⟩ "Giza"
      (by decide) (by decide) (by decide) (by decide) (by decide)⟩

/-- C4: an unknown governorate code does not stop the pipeline — the
checksum stage still runs (contributing `invalid_checksum` exactly when
strict mode is on and the checksum fails) and the final result is
invalid with `unknown_governorate` reported first. -/
theorem unknown_governorate_is_soft (today : PyDate) (input nid : List Char)
    (bd : PyDate) (strict : Bool)
    (hf : validate_format (pyStrip input) = (some nid, []))
    (hc : validate_century (nid.getD 0 ' ') = (true, []))
    (hdt : validate_date today (nid.getD 0 ' ') ((nid.drop 1).take 2)
      ((nid.drop 3).take 2) ((nid.drop 5).take 2) = (some bd, []))
    (hg : GOVERNORATES.find? (fun p => p.1 == String.mk ((nid.drop 7).take 2)) = none) :
    validate_and_parse today input strict
      = (false, ERR_UNKNOWN_GOVERNORATE ::
          (if strict && !validate_checksum nid then [ERR_INVALID_CHECKSUM] else []),
         none) := by
  have hgov : validate_governorate ((nid.drop 7).take 2)
      = ("Unknown", [ERR_UNKNOWN_GOVERNORATE]) := by
    simp [validate_governorate, hg]
  simp only [validate_and_parse, hf, hc, hdt, hgov]
  by_cases hcs : (strict && !validate_checksum nid) = true
  · simp [hcs]
  · simp [hcs]

/-- C4 witness: the theorem applied at `"29001019900018"` (governorate
code 99, not in the table) with strict mode on. -/
theorem unknown_governorate_is_soft_witness :
    (validate_format (pyStrip "29001019900018".toList)
        = (some "29001019900018".toList, []) ∧
      validate_century ("29001019900018".toList.getD 0 ' ') = (true, []) ∧
      validate_date ⟨2025, 10, 12⟩ ("29001019900018".toList.getD 0 ' ')
        (("29001019900018".toList.drop 1).take 2) (("29001019900018".toList.drop 3).take 2)
        (("29001019900018".toList.drop 5).take 2) = (some ⟨1990, 1, 1⟩, []) ∧
      GOVERNORATES.find?
        (fun p => p.1 == String.mk (("29001019900018".toList.drop 7).take 2)) = none) ∧
    validate_and_parse ⟨2025, 10, 12⟩ "29001019900018".toList true
      = (false, ERR_UNKNOWN_GOVERNORATE ::
          (if true && !validate_checksum "29001019900018".toList
            then [ERR_INVALID_CHECKSUM] else []), none) :=
  ⟨⟨by decide, by decide, by decide, by decide⟩,
    unknown_governorate_is_soft ⟨2025, 10, 12⟩ "29001019900018".toList
      "29001019900018".toList ⟨1990, 1, 1⟩ true
      (by decide) (by decide) (by decide) (by decide)⟩

/-- C6 counterexample: `"29001019900018"` under strict mode returns the
error list `[unknown_governorate, invalid_checksum]` — two errors from
two distinct pipeline stages (governorate lookup and checksum) in one
parse result, contradicting the claim that errors from different stages
never co-occur. -/
theorem stage_errors_cooccur_counterexample :
    (validate_and_parse ⟨2025, 10, 12⟩ "29001019900018".toList true).2.1
      = [ERR_UNKNOWN_GOVERNORATE, ERR_INVALID_CHECKSUM] ∧
    ERR_UNKNOWN_GOVERNORATE ≠ ERR_INVALID_CHECKSUM := by
  constructor
  · decide
  · decide

/-- C6 (amended): once any stage‑1–6 error exists parsing stops with
exactly that error, so every error list of `validate_and_parse` is
empty, a single stage's singleton, or exactly
`[unknown_governorate, invalid_checksum]` — the one cross-stage pair
allowed because the soft governorate stage does not stop the pipeline. -/
theorem stage_errors_cooccur_only_gov_checksum (today : PyDate) (input : List Char)
    (strict : Bool) :
    (validate_and_parse today input strict).2.1 = [] ∨
    (∃ e, (validate_and_parse today input strict).2.1 = [e]) ∨
    (validate_and_parse today input strict).2.1
      = [ERR_UNKNOWN_GOVERNORATE, ERR_INVALID_CHECKSUM] := by
  rcases validate_and_parse_shape today input strict with ⟨_, h2, _⟩ | ⟨_, _, h3⟩
  · left; exact h2
  · rcases h3 with h3 | h3 | h3 | h3 | h3 | h3 | h3 | h3 | h3 | h3
    all_goals first
      | (right; left; exact ⟨_, h3⟩)
      | (right; right; exact h3)

/-- C7: `validate_and_parse` returns `valid = true` iff the error list
is empty, and returns a parsed payload iff it returns `valid = true`. -/
theorem valid_iff_no_errors_iff_parsed (today : PyDate) (input : List Char)
    (strict : Bool) :
    ((validate_and_parse today input strict).1 = true ↔
      (validate_and_parse today input strict).2.1 = []) ∧
    ((validate_and_parse today input strict).2.2.isSome = true ↔
      (validate_and_parse today input strict).1 = true) := by
  rcases validate_and_parse_shape today input strict with ⟨h1, h2, p, h3⟩ | ⟨h1, h2, h3⟩
  · simp [h1, h2, h3]
  · rcases h3 with h3 | h3 | h3 | h3 | h3 | h3 | h3 | h3 | h3 | h3 <;>
      simp [h1, h2, h3, ERR_INVALID_LENGTH, ERR_INVALID_CHARACTERS, ERR_UNKNOWN_CENTURY,
        ERR_INVALID_MONTH, ERR_INVALID_DAY, ERR_INVALID_DATE, ERR_FUTURE_DATE,
        ERR_UNKNOWN_GOVERNORATE, ERR_INVALID_CHECKSUM]

/-! ## Claim C5 — digit normalization -/

/-- An Eastern Arabic-Indic digit is one of the ten characters of
`_normalize_digits`' translation table. -/
theorem isArabicDigit_cases (c : Char) (h : isArabicDigit c = true) :
    c = '٠' ∨ c = '١' ∨ c = '٢' ∨ c = '٣' ∨ c = '٤' ∨ c = '٥' ∨ c = '٦' ∨
    c = '٧' ∨ c = '٨' ∨ c = '٩' := by
  simp only [isArabicDigit, Bool.and_eq_true, decide_eq_true_eq] at h
  have hc : c.toNat = 0x660 ∨ c.toNat = 0x661 ∨ c.toNat = 0x662 ∨ c.toNat = 0x663 ∨
      c.toNat = 0x664 ∨ c.toNat = 0x665 ∨ c.toNat = 0x666 ∨ c.toNat = 0x667 ∨
      c.toNat = 0x668 ∨ c.toNat = 0x669 := by omega
  have hofn := Char.ofNat_toNat c
  rcases hc with h | h | h | h | h | h | h | h | h | h <;> rw [h] at hofn <;>
    rw [← hofn] <;> decide

/-- The translation table is the identity away from the Arabic-Indic
digit block. -/
theorem normalizeDigit_eq_self (c : Char) (h : isArabicDigit c = false) :
    normalizeDigit c = c := by
  unfold normalizeDigit
  split_ifs with h0 h1 h2 h3 h4 h5 h6 h7 h8 h9 <;>
    first | rfl | (subst ‹c = _›; exact absurd h (by decide))

/-- The translation table is idempotent. -/
theorem normalizeDigit_idem (c : Char) :
    normalizeDigit (normalizeDigit c) = normalizeDigit c := by
  by_cases h : isArabicDigit c = true
  · rcases isArabicDigit_cases c h with h | h | h | h | h | h | h | h | h | h <;>
      subst h <;> decide
  · have hb : isArabicDigit c = false := by rwa [Bool.not_eq_true] at h
    simp [normalizeDigit_eq_self c hb]

/-- `normalizeDigit` fixes every ASCII character. -/
theorem normalizeDigit_ascii (c : Char) (h : c.toNat ≤ 127) : normalizeDigit c = c := by
  apply normalizeDigit_eq_self
  simp only [isArabicDigit, Bool.and_eq_false_iff, decide_eq_false_iff_not]
  left
  omega

/-- `_normalize_digits` is idempotent. -/
theorem normalize_digits_idem (s : List Char) :
    normalize_digits (normalize_digits s) = normalize_digits s := by
  unfold normalize_digits
  rw [List.map_map]
  apply List.map_congr_left
  intro c _
  exact normalizeDigit_idem c

/-- An Arabic-Indic digit normalizes to an ASCII digit. -/
theorem normalizeDigit_arabic_isAscii (c : Char) (h : isArabicDigit c = true) :
    isAsciiDigit (normalizeDigit c) = true := by
  rcases isArabicDigit_cases c h with h | h | h | h | h | h | h | h | h | h <;>
    subst h <;> decide

/-- Digit characters are not `str.strip()` whitespace. -/
theorem digit_not_pySpace (c : Char) (h : pyIsDigit c = true) : isPySpace c = false := by
  simp only [pyIsDigit, isAsciiDigit, isArabicDigit, Bool.or_eq_true, Bool.and_eq_true,
    decide_eq_true_eq] at h
  rw [Bool.eq_false_iff]
  intro hs
  simp only [isPySpace, Bool.or_eq_true, Bool.and_eq_true, decide_eq_true_eq] at hs
  omega

/-- `dropWhile` is the identity when the predicate fails everywhere. -/
theorem dropWhile_eq_self (p : Char → Bool) (s : List Char)
    (h : ∀ c ∈ s, p c = false) : s.dropWhile p = s := by
  cases s with
  | nil => rfl
  | cons c cs => simp [List.dropWhile_cons, h c (List.mem_cons_self _ _)]

/-- `str.strip()` is the identity on whitespace-free strings. -/
theorem pyStrip_eq_self (s : List Char) (h : ∀ c ∈ s, isPySpace c = false) :
    pyStrip s = s := by
  unfold pyStrip
  rw [dropWhile_eq_self _ _ h,
    dropWhile_eq_self _ _ (fun c hc => h c (List.mem_reverse.mp hc)),
    List.reverse_reverse]

/-- C5: normalizing an ASCII-only string is a no-op, and for every
strict flag an all-Arabic-Indic-digit string parses to exactly the same
result as its ASCII-digit equivalent (its normalization). -/
theorem normalization_idempotent_and_locale_equivalent (today : PyDate) (strict : Bool)
    (t s : List Char) (ht : ∀ c ∈ t, c.toNat ≤ 127)
    (hs : ∀ c ∈ s, isArabicDigit c = true) :
    normalize_digits t = t ∧
    validate_and_parse today s strict
      = validate_and_parse today (normalize_digits s) strict := by
  constructor
  · unfold normalize_digits
    conv_rhs => rw [← List.map_id t]
    apply List.map_congr_left
    intro c hc
    exact normalizeDigit_ascii c (ht c hc)
  · have h1 : pyStrip s = s :=
      pyStrip_eq_self s (fun c hc => digit_not_pySpace c (by simp [pyIsDigit, hs c hc]))
    have h2 : pyStrip (normalize_digits s) = normalize_digits s := by
      apply pyStrip_eq_self
      intro c hc
      obtain ⟨a, ha, rfl⟩ := List.mem_map.mp hc
      exact digit_not_pySpace _
        (by simp [pyIsDigit, normalizeDigit_arabic_isAscii a (hs a ha)])
    have hlen : (normalize_digits s).length = s.length := by simp [normalize_digits]
    have h3 : validate_format (normalize_digits s) = validate_format s := by
      simp only [validate_format, normalize_digits_idem, hlen]
    simp only [validate_and_parse, h1, h2, h3]

/-- C5 witness: the theorem applied to the ASCII id `"30103271701312"`
and its Arabic-Indic form. -/
theorem normalization_idempotent_and_locale_equivalent_witness :
    ((∀ c ∈ "30103271701312".toList, c.toNat ≤ 127) ∧
      (∀ c ∈ "٣٠١٠٣٢٧١٧٠١٣١٢".toList, isArabicDigit c = true)) ∧
    (normalize_digits "30103271701312".toList = "30103271701312".toList ∧
      validate_and_parse ⟨2025, 10, 12⟩ "٣٠١٠٣٢٧١٧٠١٣١٢".toList false
        = validate_and_parse ⟨2025, 10, 12⟩
            (normalize_digits "٣٠١٠٣٢٧١٧٠١٣١٢".toList) false) :=
  ⟨⟨by decide, by decide⟩,
    normalization_idempotent_and_locale_equivalent ⟨2025, 10, 12⟩ false
      "30103271701312".toList "٣٠١٠٣٢٧١٧٠١٣١٢".toList (by decide) (by decide)⟩

/-! ## views.py : `ValidateIDView` -/

/-- The request payload projection dispatched to `log_validation_task`. -/
structure AuditRequestData where
  national_id : List Char
  strict_checksum : Bool
deriving DecidableEq, Repr

/-- The audit dispatch (`log_validation_task.delay`) arguments the
claims are about. -/
structure AuditCall where
  status_code : Nat
  request_data : AuditRequestData
deriving DecidableEq, Repr

/-- `_log_validation_async`'s request payload:
`national_id[:8] + "****" if is_valid else national_id` — Python parses
the conditional expression as
`(national_id[:8] + "****") if is_valid else national_id`. -/
def log_validation_request_data (national_id : List Char)
    (strict_checksum is_valid : Bool) : AuditRequestData :=
  { national_id := if is_valid then national_id.take 8 ++ "****".toList else national_id,
    strict_checksum := strict_checksum }

/-- `_log_error_validation`'s request payload: the fixed placeholder
(`request.data.get('strict_checksum', False)` modelled for a body
without the field). -/
def log_error_request_data : AuditRequestData :=
  { national_id := "****".toList, strict_checksum := false }

/-- The client-visible response of `ValidateIDView.post`. -/
structure HttpResponse where
  status : Nat
  valid : Bool
  errors : List String
  parsed : Option ParsedData
deriving DecidableEq, Repr

/-- `ValidateIDView.post`. The body is `none` when
`ValidateIDRequestSerializer` rejects it (missing/malformed
`national_id`) and `some (national_id, strict_checksum)` otherwise. On
the parse path the audit dispatch receives the `status.HTTP_200_OK`
constant, and the response status is computed afterwards as 400 when
the error list is non-empty; `ValidateIDResponseSerializer`
re-validation always succeeds on these payloads, so its 500 fallback is
unreachable and not modelled. -/
def post (today : PyDate) (body : Option (List Char × Bool)) : HttpResponse × AuditCall :=
  match body with
  | none =>
    ({ status := 400, valid := false,
       errors := ["Invalid request: national_id"], parsed := none },
     { status_code := 400, request_data := log_error_request_data })
  | some (national_id, strict_checksum) =>
    match validate_and_parse today national_id strict_checksum with
    | (is_valid, errors, parsed_data) =>
      let audit : AuditCall :=
        { status_code := 200,
          request_data := log_validation_request_data national_id strict_checksum is_valid }
      let status_number := if !errors.isEmpty then 400 else 200
      ({ status := status_number, valid := is_valid, errors := errors,
         parsed := if is_valid then parsed_data else none }, audit)

/-! ## Claims C8 and C10 — audit dispatch -/

/-- C8: the audit record logs the first 8 characters of the submitted
value followed by `"****"` when the parse result is valid, the full raw
submitted value when it is invalid, and the fixed placeholder `"****"`
when the body fails schema validation before parsing. -/
theorem audit_masking_asymmetry (today : PyDate) (nid : List Char) (strict : Bool) :
    ((post today (some (nid, strict))).2.request_data.national_id
      = if (validate_and_parse today nid strict).1 then nid.take 8 ++ "****".toList
        else nid) ∧
    (post today none).2.request_data.national_id = "****".toList := by
  constructor
  · rcases h : validate_and_parse today nid strict with ⟨v, e, p⟩
    simp [post, log_validation_request_data, h]
  · rfl

/-- C10: when the body passes schema validation but the id fails
parsing, the audit dispatch is made with status_code 200 while the HTTP
response returns 400. -/
theorem audit_logs_200_on_parse_failure (today : PyDate) (nid : List Char)
    (strict : Bool) (h : (validate_and_parse today nid strict).1 = false) :
    (post today (some (nid, strict))).1.status = 400 ∧
    (post today (some (nid, strict))).2.status_code = 200 := by
  have hne : (validate_and_parse today nid strict).2.1 ≠ [] := by
    rcases validate_and_parse_shape today nid strict with ⟨h1, _, _⟩ | ⟨_, _, h3⟩
    · simp [h] at h1
    · rcases h3 with h3 | h3 | h3 | h3 | h3 | h3 | h3 | h3 | h3 | h3 <;> simp [h3]
  rcases hv : validate_and_parse today nid strict with ⟨v, e, p⟩
  rw [hv] at hne h
  cases e with
  | nil => exact absurd rfl hne
  | cons a as => simp [post, hv, h]

/-- C10 witness: the theorem applied at the structurally invalid id
`"12345"`. -/
theorem audit_logs_200_on_parse_failure_witness :
    (validate_and_parse ⟨2025, 10, 12⟩ "12345".toList false).1 = false ∧
    ((post ⟨2025, 10, 12⟩ (some ("12345".toList, false))).1.status = 400 ∧
      (post ⟨2025, 10, 12⟩ (some ("12345".toList, false))).2.status_code = 200) :=
  ⟨by decide,
    audit_logs_200_on_parse_failure ⟨2025, 10, 12⟩ "12345".toList false (by decide)⟩

/-! ## authentication.py : `APIKeyAuthentication` -/

/-- An `APIKey` row as read by `get_api_key_data` (the deferred columns
are not consulted there). `hashed_key` is the stored password hash;
verification is performed by an abstract `check_password` collaborator
passed to `get_api_key_data`. -/
structure APIKeyRec where
  name : String
  hashed_key : String
  prefix_key : String
  revoked : Bool
  quota_requests_per_minute : Nat
  quota_requests_per_day : Nat
deriving DecidableEq, Repr

/-- Django cache state plus the collaborator call counter:
`store` maps a cache key to `(stored value, absolute expiry)` — the
stored value `none` is the tombstone `cache.set(cache_key, None, 60)`
writes for an invalid secret — and `fetchCount` counts the candidate
fetches (`APIKey.objects.filter(...)` evaluations). -/
structure AuthState where
  now : Nat
  store : List (String × (Option APIKeyRec × Nat))
  fetchCount : Nat
deriving DecidableEq, Repr

/-- `cache.get(key)`: the stored value while unexpired, else the default
`None`. The caller receives `none` alike for a miss, an expired entry,
and a stored tombstone — they are indistinguishable. -/
def cacheGetPy (st : AuthState) (k : String) : Option APIKeyRec :=
  match st.store.find? (fun e => e.1 == k) with
  | some (_, (v, expiry)) => if st.now < expiry then v else none
  | none => none

/-- `cache.set(key, value, ttl)`. -/
def cacheSetPy (st : AuthState) (k : String) (v : Option APIKeyRec) (ttl : Nat) :
    AuthState :=
  { st with store := (k, (v, st.now + ttl)) :: st.store.filter (fun e => e.1 ≠ k) }

/-- `APIKeyAuthentication.get_api_key_data`, parameterized by the
`check_password` collaborator and the database rows `db`. Returns the
resolved record or the `ValidationError('Invalid API key.')`, plus the
updated cache/counter state. -/
def get_api_key_data (check_password : String → String → Bool) (db : List APIKeyRec)
    (st : AuthState) (api_key_value : String) : Except String APIKeyRec × AuthState :=
  if api_key_value = "" then (Except.error "Invalid API key.", st)
  else
    let cache_key := "api_key_" ++ api_key_value
    match cacheGetPy st cache_key with
    | some rec => (Except.ok rec, st)
    | none =>
      -- cache miss (or unobservable tombstone): fetch candidates by prefix
      let api_key_prefix := String.mk (api_key_value.toList.take 8)
      let active_keys := db.filter (fun r => !r.revoked && r.prefix_key == api_key_prefix)
      let st' : AuthState := { st with fetchCount := st.fetchCount + 1 }
      match active_keys.find? (fun r => check_password api_key_value r.hashed_key) with
      | some r => (Except.ok r, cacheSetPy st' cache_key (some r) 300)
      | none => (Except.error "Invalid API key.", cacheSetPy st' cache_key none 60)

/-! ## Claim C2 — the negative cache -/

/-- C2 (code bug): starting from an empty cache, a lookup of the
unmatched secret `"wrongsecret123"` fails and stores a 60-second
tombstone, yet a second lookup of the identical secret 10 seconds later
— with the tombstone still present and unexpired — performs a second
candidate fetch (`fetchCount` reaches 2), because `cache.get` returns
`None` for the tombstone exactly as for a miss. The claim's fail-fast
cache hit never happens. -/
theorem tombstone_not_a_cache_hit :
    (get_api_key_data (fun _ _ => false) [] ⟨0, [], 0⟩ "wrongsecret123").1
        = Except.error "Invalid API key." ∧
    (get_api_key_data (fun _ _ => false) [] ⟨0, [], 0⟩ "wrongsecret123").2
        = ⟨0, [("api_key_wrongsecret123", (none, 60))], 1⟩ ∧
    (get_api_key_data (fun _ _ => false) []
        ⟨10, [("api_key_wrongsecret123", (none, 60))], 1⟩ "wrongsecret123").1
        = Except.error "Invalid API key." ∧
    (get_api_key_data (fun _ _ => false) []
        ⟨10, [("api_key_wrongsecret123", (none, 60))], 1⟩ "wrongsecret123").2.fetchCount
        = 2 := by
  exact ⟨rfl, by decide, rfl, by decide⟩

/-! ## throttling.py : `APIKeyRateThrottle` and `DailyAPIKeyThrottle` -/

/-- Python `str.split(sep)` for a single-character separator. -/
def pySplit (sep : Char) : List Char → List (List Char)
  | [] => [[]]
  | c :: cs =>
    match pySplit sep cs with
    | [] => [[c]]
    | h :: t => if c = sep then [] :: h :: t else (c :: h) :: t

/-- `str.split` never returns an empty list of parts. -/
theorem pySplit_ne_nil (sep : Char) (s : List Char) : pySplit sep s ≠ [] := by
  cases s with
  | nil => simp [pySplit]
  | cons c cs =>
    simp only [pySplit]
    cases pySplit sep cs with
    | nil => simp
    | cons h t =>
      split
      · simp
      · split <;> simp

/-- Splitting a separator-free string gives one part. -/
theorem pySplit_no_sep (sep : Char) (s : List Char) (h : ∀ c ∈ s, c ≠ sep) :
    pySplit sep s = [s] := by
  induction s with
  | nil => rfl
  | cons c cs ih =>
    have htail : pySplit sep cs = [cs] := ih (fun x hx => h x (List.mem_cons_of_mem _ hx))
    simp only [pySplit, htail]
    rw [if_neg (h c (List.mem_cons_self _ _))]

/-- Splitting peels off a separator-free head part. -/
theorem pySplit_append (sep : Char) (xs ys : List Char) (h : ∀ c ∈ xs, c ≠ sep) :
    pySplit sep (xs ++ sep :: ys) = xs :: pySplit sep ys := by
  induction xs with
  | nil =>
    simp only [List.nil_append, pySplit]
    cases hys : pySplit sep ys with
    | nil => exact absurd hys (pySplit_ne_nil sep ys)
    | cons h t => simp
  | cons c cs ih =>
    have htail := ih (fun x hx => h x (List.mem_cons_of_mem _ hx))
    simp only [List.cons_append, pySplit, List.append_eq, htail]
    rw [if_neg (h c (List.mem_cons_self _ _))]

/-- `Nat.digitChar` yields the matching ASCII digit below 10. -/
theorem digitChar_spec (m : Nat) (h : m < 10) :
    isAsciiDigit (Nat.digitChar m) = true ∧ digitVal (Nat.digitChar m) = m := by
  interval_cases m <;> exact ⟨by decide, by decide⟩

/-- `Nat.toDigitsCore` in base 10 prepends the decimal digits of `n`:
they are ASCII digits and fold back to `n`. -/
theorem toDigitsCore_spec :
    ∀ (f n : Nat) (ds : List Char), n < f →
      ∃ t : List Char, Nat.toDigitsCore 10 f n ds = t ++ ds ∧ t ≠ [] ∧
        (∀ c ∈ t, isAsciiDigit c = true) ∧
        (∀ a : Nat, (t ++ ds).foldl (fun a c => 10 * a + digitVal c) a
            = ds.foldl (fun a c => 10 * a + digitVal c) (a * 10 ^ t.length + n)) := by
  intro f
  induction f with
  | zero => intro n ds h; omega
  | succ f ih =>
    intro n ds h
    have hd := digitChar_spec (n % 10) (Nat.mod_lt _ (by norm_num))
    by_cases h10 : n / 10 = 0
    · refine ⟨[Nat.digitChar (n % 10)], ?_, by simp, ?_, ?_⟩
      · simp [Nat.toDigitsCore, h10]
      · intro c hc
        simp at hc
        subst hc
        exact hd.1
      · intro a
        have hn : n % 10 = n := Nat.mod_eq_of_lt (by omega)
        simp only [List.cons_append, List.nil_append, List.foldl_cons, hd.2,
          List.length_cons, List.length_nil, Nat.zero_add, pow_one]
        congr 1
        omega
    · have hlt : n / 10 < f := by
        have := Nat.div_lt_self (by omega : 0 < n) (by norm_num : 1 < 10)
        omega
      obtain ⟨t', ht', hne, hdig, hfold⟩ := ih (n / 10) (Nat.digitChar (n % 10) :: ds) hlt
      refine ⟨t' ++ [Nat.digitChar (n % 10)], ?_, by simp, ?_, ?_⟩
      · simp only [Nat.toDigitsCore, h10, if_false, ht', List.append_assoc,
          List.singleton_append]
      · intro c hc
        rcases List.mem_append.mp hc with h1 | h1
        · exact hdig c h1
        · simp at h1
          subst h1
          exact hd.1
      · intro a
        rw [List.append_assoc, List.singleton_append, hfold a, List.foldl_cons, hd.2]
        have harith : 10 * (a * 10 ^ t'.length + n / 10) + n % 10
            = a * 10 ^ (t' ++ [Nat.digitChar (n % 10)]).length + n := by
          simp only [List.length_append, List.length_cons, List.length_nil]
          rw [pow_succ]
          ring_nf
          omega
        rw [harith]

/-- `Nat.repr` produces ASCII digits, and `digitsVal` (Python `int`)
inverts it. -/
theorem repr_digits (n : Nat) :
    (∀ c ∈ (Nat.repr n).toList, isAsciiDigit c = true) ∧
      digitsVal (Nat.repr n).toList = n := by
  obtain ⟨t, ht, _, hdig, hfold⟩ := toDigitsCore_spec (n + 1) n [] (Nat.lt_succ_self n)
  have hrepr : (Nat.repr n).toList = t := by
    show (Nat.toDigits 10 n).asString.toList = t
    rw [Nat.toDigits, ht]
    simp [List.asString]
  rw [hrepr]
  refine ⟨hdig, ?_⟩
  have := hfold 0
  simpa [digitsVal] using this

/-- DRF's period-letter table
`{'s': 1, 'm': 60, 'h': 3600, 'd': 86400}[period[0]]`. -/
def period_seconds (c : Char) : Nat :=
  if c = 's' then 1 else if c = 'm' then 60 else if c = 'h' then 3600
  else if c = 'd' then 86400 else 0

/-- Modelled from the spec: `rest_framework`'s
`SimpleRateThrottle.parse_rate` (the framework collaborator
`allow_request` defers to): `num, period = rate.split('/');
(int(num), seconds-per-period-letter)`. The rates this code base
produces always contain exactly one `'/'`. -/
def parse_rate (rate : List Char) : Nat × Nat :=
  let parts := pySplit '/' rate
  (digitsVal (parts.getD 0 []), period_seconds ((parts.getD 1 []).getD 0 ' '))

/-- `APIKeyRateThrottle._get_custom_rate`:
`f"{quota_requests_per_minute}/minute"` for an authenticated key
(`hasattr(request.user, 'api_key')`), else the `'2/minute'` default. -/
def minute_custom_rate (user_api_key : Option APIKeyRec) : List Char :=
  match user_api_key with
  | some k => (Nat.repr k.quota_requests_per_minute).toList ++ "/minute".toList
  | none => "2/minute".toList

/-- `DailyAPIKeyThrottle._get_custom_rate`:
`f"{quota_requests_per_day}/day"` for an authenticated key, else the
`'100/day'` default. -/
def day_custom_rate (user_api_key : Option APIKeyRec) : List Char :=
  match user_api_key with
  | some k => (Nat.repr k.quota_requests_per_day).toList ++ "/day".toList
  | none => "100/day".toList

/-- `APIKeyRateThrottle.allow_request`: resolve the custom rate, parse
it into `(num_requests, duration)`, and defer to the framework window
check `super().allow_request`, abstracted as `window`. -/
def minute_allow_request (window : Nat → Nat → Bool)
    (user_api_key : Option APIKeyRec) : Bool :=
  match parse_rate (minute_custom_rate user_api_key) with
  | (num_requests, duration) => window num_requests duration

/-- `DailyAPIKeyThrottle.allow_request` (inherited `allow_request` with
the daily `_get_custom_rate`). -/
def day_allow_request (window : Nat → Nat → Bool)
    (user_api_key : Option APIKeyRec) : Bool :=
  match parse_rate (day_custom_rate user_api_key) with
  | (num_requests, duration) => window num_requests duration

/-- Modelled from the spec: the framework admits a request iff every
throttle in `throttle_classes = [APIKeyRateThrottle, DailyAPIKeyThrottle]`
allows it. -/
def request_admitted (minuteWindow dayWindow : Nat → Nat → Bool)
    (user_api_key : Option APIKeyRec) : Bool :=
  minute_allow_request minuteWindow user_api_key &&
    day_allow_request dayWindow user_api_key

/-- Formatting a quota and re-parsing it through `parse_rate` returns
the quota and the period's seconds. -/
theorem parse_rate_roundtrip (q : Nat) (period : List Char)
    (hnp : ∀ c ∈ period, c ≠ '/') :
    parse_rate ((Nat.repr q).toList ++ '/' :: period)
      = (q, period_seconds (period.getD 0 ' ')) := by
  obtain ⟨hdig, hval⟩ := repr_digits q
  have hslash : ∀ c ∈ (Nat.repr q).toList, c ≠ '/' := by
    intro c hc heq
    have h1 := hdig c hc
    rw [heq] at h1
    exact absurd h1 (by decide)
  unfold parse_rate
  rw [pySplit_append '/' _ _ hslash, pySplit_no_sep '/' period hnp]
  simpa using hval

/-! ## Claim C9 — effective throttle rates and dual-window admission -/

/-- C9: an authenticated request's per-minute limit is the key record's
`quota_requests_per_minute` over a 60-second window and its per-day
limit is `quota_requests_per_day` over 86400 seconds, both read from
the resolved record; an unauthenticated request gets 2/minute and
100/day; and the request is admitted iff both window checks allow it. -/
theorem effective_rates_and_dual_window (mw dw : Nat → Nat → Bool) (k : APIKeyRec) :
    minute_allow_request mw (some k) = mw k.quota_requests_per_minute 60 ∧
    day_allow_request dw (some k) = dw k.quota_requests_per_day 86400 ∧
    minute_allow_request mw none = mw 2 60 ∧
    day_allow_request dw none = dw 100 86400 ∧
    ∀ u, request_admitted mw dw u
      = (minute_allow_request mw u && day_allow_request dw u) := by
  refine ⟨?_, ?_, rfl, rfl, fun u => rfl⟩
  · have h := parse_rate_roundtrip k.quota_requests_per_minute "minute".toList (by decide)
    have hsec : period_seconds ("minute".toList.getD 0 ' ') = 60 := by decide
    rw [hsec] at h
    unfold minute_allow_request minute_custom_rate
    rw [show "/minute".toList = '/' :: "minute".toList from rfl, h]
  · have h := parse_rate_roundtrip k.quota_requests_per_day "day".toList (by decide)
    have hsec : period_seconds ("day".toList.getD 0 ' ') = 86400 := by decide
    rw [hsec] at h
    unfold day_allow_request day_custom_rate
    rw [show "/day".toList = '/' :: "day".toList from rfl, h]

end EgyptianId
